import Mathlib

/-!
Verification of the weather ETL pipeline (`weather_etl`): a shallow
embedding of the Extract stage (`fetch_weather`, `extract_all` in
`extract.py`), the Transform stage (`_parse_single`, `transform` in
`transform.py`) and the Load collaborator (`load_to_csv`,
`load_to_sqlite` in `load.py`), together with theorems settling the
specification claims about retry/back-off behaviour, partial-failure
tolerance, defensive parsing, type coercion and empty-input handling.

Python dictionaries are modelled as association lists, Python `None`
(and the pandas missing markers NaN / NA that play the role of "null"
in the output table) as `PyVal.none`, Python floats as rationals, and
Python exceptions as `Except PyErr`.
-/

/-- Model of a Python / JSON value as it flows through the pipeline. -/
inductive PyVal : Type where
  | none : PyVal
  | bool : Bool → PyVal
  | int : Int → PyVal
  | float : Rat → PyVal
  | str : String → PyVal
  | list : List PyVal → PyVal
  | dict : List (String × PyVal) → PyVal
deriving Repr

/-- Model of the Python exception classes the transform code can meet:
`KeyError` and `TypeError` are the classes caught by `_parse_single`;
`AttributeError` is what `x.get(...)` raises when `x` is not a dict. -/
inductive PyErr : Type where
  | keyError : PyErr
  | typeError : PyErr
  | attributeError : PyErr
deriving Repr, DecidableEq

/-- Lookup of a key in an association-list dictionary, returning a default
when the key is absent (the semantics of Python `dict.get(key, default)`
on a dict value). -/
def lookupD (entries : List (String × PyVal)) (k : String) (dflt : PyVal) : PyVal :=
  match entries.find? (fun e => e.1 == k) with
  | some e => e.2
  | Option.none => dflt

/-- Model of the Python attribute access `v.get(key, default)`: on a dict it
never raises and returns the stored value or the default; on any other value
it raises `AttributeError` (only dicts have a `get` method). -/
def pyGet (v : PyVal) (k : String) (dflt : PyVal) : Except PyErr PyVal :=
  match v with
  | .dict entries => .ok (lookupD entries k dflt)
  | _ => .error .attributeError

/-- Value of a sub-field of the `current_weather` block: present value, or
null (`PyVal.none`) when the sub-field is missing, as produced by
`current.get(name)` in `_parse_single`. -/
def subField (entries : List (String × PyVal)) (k : String) : PyVal :=
  lookupD entries k PyVal.none

/-- One flattened weather observation, the row dictionary built by
`_parse_single` (transform.py lines 54-63); its fields are the eight
output columns. -/
structure Row : Type where
  city : PyVal
  timestamp : PyVal
  temperature_c : PyVal
  windspeed_kmh : PyVal
  winddirection_deg : PyVal
  weathercode : PyVal
  is_day : PyVal
  retrieval_timestamp : PyVal
deriving Repr

/-- Model of the resulting pandas DataFrame: its column list together with
its rows. -/
structure Frame : Type where
  columns : List String
  rows : List Row
deriving Repr

/-- Columns expected in the final DataFrame (transform.py lines 20-29). -/
def EXPECTED_COLUMNS : List String :=
  ["city", "timestamp", "temperature_c", "windspeed_kmh",
   "winddirection_deg", "weathercode", "is_day", "retrieval_timestamp"]

/-- Body of the `try` block of `_parse_single` (transform.py lines 53-64):
six successive `current.get(...)` calls followed by construction of the flat
row dictionary. The wall-clock string `now` stands for
`datetime.now(timezone.utc).isoformat()`. Each `pyGet` raises
`AttributeError` when `current` is not a dict. -/
def buildRow (now : String) (cityName current : PyVal) : Except PyErr Row :=
  (pyGet current "time" PyVal.none).bind fun time =>
  (pyGet current "temperature" PyVal.none).bind fun temp =>
  (pyGet current "windspeed" PyVal.none).bind fun wind =>
  (pyGet current "winddirection" PyVal.none).bind fun dir =>
  (pyGet current "weathercode" PyVal.none).bind fun wcode =>
  (pyGet current "is_day" PyVal.none).bind fun isday =>
  .ok { city := cityName, timestamp := time, temperature_c := temp,
        windspeed_kmh := wind, winddirection_deg := dir, weathercode := wcode,
        is_day := isday, retrieval_timestamp := PyVal.str now }

/-- Embedding of `_parse_single` (transform.py lines 32-68): extracts the
`current_weather` block, skips the record (`Option.none`) when the block is
`None`, and wraps the row construction in a handler that catches exactly
`KeyError` and `TypeError` — any other exception (notably `AttributeError`)
propagates. -/
def parse_single (now : String) (record : PyVal) : Except PyErr (Option Row) :=
  (pyGet record "city" (PyVal.str "unknown")).bind fun cityName =>
  (pyGet record "raw" (PyVal.dict [])).bind fun raw =>
  (pyGet raw "current_weather" PyVal.none).bind fun current =>
  match current with
  | PyVal.none => .ok Option.none
  | _ =>
    match buildRow now cityName current with
    | .ok parsed => .ok (some parsed)
    | .error .keyError => .ok Option.none
    | .error .typeError => .ok Option.none
    | .error e => .error e

/-- Embedding of the row-collection loop of `transform` (transform.py lines
86-90): parse each record in order, keep the successfully parsed rows,
propagate any uncaught exception. -/
def collectRows (now : String) : List PyVal → Except PyErr (List Row)
  | [] => .ok []
  | record :: rest =>
    (parse_single now record).bind fun parsed =>
    (collectRows now rest).bind fun rows =>
    match parsed with
    | some row => .ok (row :: rows)
    | Option.none => .ok rows

/-- Value of a digit string (most significant digit first). -/
def digitsToNat (cs : List Char) : Nat :=
  cs.foldl (fun a c => a * 10 + (c.toNat - 48)) 0

/-- Parse of an unsigned decimal literal, with an optional fractional part,
after the sign has been stripped. -/
def parseNumCore (neg : Bool) (cs : List Char) : Option PyVal :=
  let intPart := cs.takeWhile Char.isDigit
  let rest := cs.dropWhile Char.isDigit
  match rest with
  | [] =>
    if intPart.isEmpty then Option.none
    else
      let n : Int := Int.ofNat (digitsToNat intPart)
      some (PyVal.int (if neg then -n else n))
  | '.' :: fracRest =>
    let fracPart := fracRest.takeWhile Char.isDigit
    if (fracRest.dropWhile Char.isDigit).isEmpty then
      if intPart.isEmpty && fracPart.isEmpty then Option.none
      else
        let n : Int := Int.ofNat (digitsToNat (intPart ++ fracPart))
        let q : Rat := ((if neg then -n else n : Int) : Rat) / ((10 : Rat) ^ fracPart.length)
        some (PyVal.float q)
    else Option.none
  | _ => Option.none

/-- Removal of leading and trailing whitespace from a character list (the
whitespace stripping `pd.to_numeric` applies to string elements before
parsing). -/
def trimChars (cs : List Char) : List Char :=
  ((cs.dropWhile Char.isWhitespace).reverse.dropWhile Char.isWhitespace).reverse

/-- Modelled numeric parse of a string, as `pd.to_numeric` performs on
string elements: optional surrounding whitespace and sign, then a decimal
literal; any other string fails to parse. -/
def parseNum? (s : String) : Option PyVal :=
  match trimChars s.toList with
  | [] => Option.none
  | '-' :: r => parseNumCore true r
  | '+' :: r => parseNumCore false r
  | cs => parseNumCore false cs

/-- Model of `pd.to_numeric(value, errors="coerce")` on one element: null
and numbers pass through (booleans count as 0/1), strings are parsed with
unparsable strings becoming null (NaN), and non-scalar elements (lists,
dicts) raise `TypeError` even under `errors="coerce"`. -/
def toNumeric (v : PyVal) : Except PyErr PyVal :=
  match v with
  | PyVal.none => .ok PyVal.none
  | PyVal.bool b => .ok (PyVal.int (if b then 1 else 0))
  | PyVal.int n => .ok (PyVal.int n)
  | PyVal.float q => .ok (PyVal.float q)
  | PyVal.str s =>
    match parseNum? s with
    | some w => .ok w
    | Option.none => .ok PyVal.none
  | PyVal.list _ => .error .typeError
  | PyVal.dict _ => .error .typeError

/-- Model of `.astype("Int64")` on one element of a numeric column: null
(NaN) becomes NA (still null), integers pass through, and a float is safely
cast only when it is integral — a non-integral float raises `TypeError`
("cannot safely cast non-equivalent float64 to int64"). -/
def astypeInt64 (v : PyVal) : Except PyErr PyVal :=
  match v with
  | PyVal.none => .ok PyVal.none
  | PyVal.int n => .ok (PyVal.int n)
  | PyVal.float q => if q.den = 1 then .ok (PyVal.int q.num) else .error .typeError
  | _ => .error .typeError

/-- Elementwise application of a column operation that can raise, over the
values of a column, propagating the first exception (the behaviour of the
pandas column operations used in `transform`). -/
def mapExcept (f : PyVal → Except PyErr PyVal) : List PyVal → Except PyErr (List PyVal)
  | [] => .ok []
  | v :: rest =>
    (f v).bind fun w =>
    (mapExcept f rest).bind fun ws =>
    .ok (w :: ws)

/-- One column update `df[c] = pd.to_numeric(df[c], errors="coerce")`
(transform.py lines 99-101): coerce every value of the column and write the
coerced column back. -/
def coerceColumn (rows : List Row) (get : Row → PyVal) (set : Row → PyVal → Row) :
    Except PyErr (List Row) :=
  (mapExcept toNumeric (rows.map get)).bind fun vals =>
  .ok (List.zipWith set rows vals)

/-- One column update
`df[c] = pd.to_numeric(df[c], errors="coerce").astype("Int64")`
(transform.py lines 102-103). -/
def coerceColumnInt64 (rows : List Row) (get : Row → PyVal) (set : Row → PyVal → Row) :
    Except PyErr (List Row) :=
  (mapExcept toNumeric (rows.map get)).bind fun vals =>
  (mapExcept astypeInt64 vals).bind fun vals2 =>
  .ok (List.zipWith set rows vals2)

/-- Embedding of `transform` (transform.py lines 71-106): collect the
parsed rows; when none survive, return the empty DataFrame built with
`EXPECTED_COLUMNS`; otherwise build the DataFrame from the rows with those
columns and coerce the five numeric columns in the source's order. -/
def transform (now : String) (raw_records : List PyVal) : Except PyErr Frame :=
  (collectRows now raw_records).bind fun rows =>
  match rows with
  | [] => .ok { columns := EXPECTED_COLUMNS, rows := [] }
  | _ =>
    (coerceColumn rows (fun r => r.temperature_c)
        (fun r v => { r with temperature_c := v })).bind fun rows1 =>
    (coerceColumn rows1 (fun r => r.windspeed_kmh)
        (fun r v => { r with windspeed_kmh := v })).bind fun rows2 =>
    (coerceColumn rows2 (fun r => r.winddirection_deg)
        (fun r v => { r with winddirection_deg := v })).bind fun rows3 =>
    (coerceColumnInt64 rows3 (fun r => r.weathercode)
        (fun r v => { r with weathercode := v })).bind fun rows4 =>
    (coerceColumnInt64 rows4 (fun r => r.is_day)
        (fun r v => { r with is_day := v })).bind fun rows5 =>
    .ok { columns := EXPECTED_COLUMNS, rows := rows5 }

/-- Outcome of one HTTP attempt inside `fetch_weather`, from the point of
view of the `try`/`except` ladder (extract.py lines 58-101): a successful
response with parsed JSON payload, one of the three retryable exception
classes (`Timeout`, `HTTPError`, `ConnectionError`), or any other
`RequestException` (the unrecoverable case). -/
inductive AttemptOutcome : Type where
  | success : PyVal → AttemptOutcome
  | timeout : AttemptOutcome
  | httpError : AttemptOutcome
  | connectionError : AttemptOutcome
  | unrecoverable : AttemptOutcome
deriving Repr

/-- Decision of whether an attempt outcome is one of the three retryable
failure classes of `fetch_weather`. -/
def isRetryable : AttemptOutcome → Bool
  | .timeout => true
  | .httpError => true
  | .connectionError => true
  | _ => false

/-- Observable result of a `fetch_weather` call: the returned value
(`Option`, since failures return `None`), the number of HTTP attempts
performed, and the list of back-off sleep durations in the order they were
performed. -/
structure FetchResult : Type where
  result : Option PyVal
  attempts : Nat
  sleeps : List Nat
deriving Repr

/-- Body of the retry loop of `fetch_weather` (extract.py lines 57-107),
run over the remaining attempt numbers of `range(1, max_retries + 1)`: a
successful attempt returns the payload at once, an unrecoverable error
returns `None` at once, and a retryable failure sleeps
`backoff_factor ^ attempt` when `attempt < max_retries` and continues. -/
def fetchGo (behaviour : Nat → AttemptOutcome) (backoff maxR : Nat) :
    List Nat → FetchResult
  | [] => { result := Option.none, attempts := 0, sleeps := [] }
  | attempt :: rest =>
    match behaviour attempt with
    | .success data => { result := some data, attempts := 1, sleeps := [] }
    | .unrecoverable => { result := Option.none, attempts := 1, sleeps := [] }
    | .timeout | .httpError | .connectionError =>
      let sleepsHere := if attempt < maxR then [backoff ^ attempt] else []
      let r := fetchGo behaviour backoff maxR rest
      { result := r.result, attempts := r.attempts + 1, sleeps := sleepsHere ++ r.sleeps }

/-- Embedding of `fetch_weather` (extract.py lines 21-113) for one city:
`behaviour` gives the outcome of every potential HTTP attempt, indexed by
attempt number. The loop runs over `range(1, max_retries + 1)` — empty when
`max_retries ≤ 0` — and falls through to returning `None` when every
attempt was consumed. -/
def fetch_weather (behaviour : Nat → AttemptOutcome) (max_retries : Int)
    (backoff_factor : Nat) : FetchResult :=
  fetchGo behaviour backoff_factor max_retries.toNat
    (List.range' 1 max_retries.toNat)

/-- One configured city target (name, latitude, longitude). -/
structure City : Type where
  name : String
  latitude : PyVal
  longitude : PyVal

/-- The API settings `extract_all` passes on to `fetch_weather`
(extract.py lines 139-146); only the retry-relevant settings are
observable in the model. -/
structure ApiConfig : Type where
  maxRetries : Int
  backoffFactor : Nat

/-- One element of `extract_all`'s result list: the dictionary
`{"city": city["name"], "raw": raw}` (extract.py line 148). -/
structure ExtractedRecord : Type where
  city : String
  raw : PyVal
deriving Repr

/-- Body of the loop of `extract_all` (extract.py lines 137-148) with its
accumulator `results`: fetch each city in order and append the
`{city, raw}` pair exactly when the fetch returned a value. -/
def extractLoop (fetchRes : City → Option PyVal) :
    List City → List ExtractedRecord → List ExtractedRecord
  | [], results => results
  | c :: rest, results =>
    match fetchRes c with
    | some raw => extractLoop fetchRes rest (results ++ [{ city := c.name, raw := raw }])
    | Option.none => extractLoop fetchRes rest results

/-- Embedding of `extract_all` (extract.py lines 116-155): run the loop
over the city list starting from an empty result list, where each city's
fetch is a `fetch_weather` call under that city's attempt behaviour and the
configured retry settings. -/
def extract_all (behaviourOf : City → Nat → AttemptOutcome) (cfg : ApiConfig)
    (cities : List City) : List ExtractedRecord :=
  extractLoop
    (fun c => (fetch_weather (behaviourOf c) cfg.maxRetries cfg.backoffFactor).result)
    cities []

/-- Filesystem / database side effect performed by the Load collaborator. -/
inductive LoadEffect : Type where
  | mkdir : String → LoadEffect
  | writeCsv : String → Nat → LoadEffect
deriving Repr, DecidableEq

/-- Embedding of `load_to_csv` (load.py lines 33-63): an empty DataFrame is
not written at all and no path is returned; otherwise the directory is
created, a timestamped file `weather_data_<ts>.csv` is written and its path
returned. `ts` stands for the wall-clock string
`datetime.now(timezone.utc).strftime(...)`. -/
def load_to_csv (df : Frame) (data_dir : String) (ts : String) :
    Option String × List LoadEffect :=
  match df.rows with
  | [] => (Option.none, [])
  | _ =>
    let filepath := data_dir ++ "/weather_data_" ++ ts ++ ".csv"
    (some filepath, [LoadEffect.mkdir data_dir, LoadEffect.writeCsv filepath df.rows.length])

/-- Embedding of `load_to_sqlite` (load.py lines 66-116), with the
`weather_current` table modelled as the list of its rows: an empty
DataFrame returns 0 without touching the database; otherwise the rows are
appended and the count `rows_after - rows_before` is returned. -/
def load_to_sqlite (df : Frame) (table : List Row) : Int × List Row :=
  match df.rows with
  | [] => (0, table)
  | _ =>
    let rows_before : Int := table.length
    let newTable := table ++ df.rows
    let rows_after : Int := newTable.length
    (rows_after - rows_before, newTable)

/-- Predicate: the value is numeric (integer or float) or null — the shape
of a float column entry after coercion. -/
def numOrNull (v : PyVal) : Prop :=
  v = PyVal.none ∨ (∃ n, v = PyVal.int n) ∨ (∃ q, v = PyVal.float q)

/-- Predicate: the value is an integer or null — the shape of an `Int64`
column entry after coercion. -/
def intOrNull (v : PyVal) : Prop :=
  v = PyVal.none ∨ ∃ n, v = PyVal.int n

theorem except_bind_ok {α β : Type} (a : α) (f : α → Except PyErr β) :
    (Except.ok a : Except PyErr α).bind f = f a := rfl

theorem except_bind_error {α β : Type} (e : PyErr) (f : α → Except PyErr β) :
    (Except.error e : Except PyErr α).bind f = Except.error e := rfl

theorem fetchGo_cons_retryable (behaviour : Nat → AttemptOutcome) (b M attempt : Nat)
    (rest : List Nat) (h : isRetryable (behaviour attempt) = true) :
    fetchGo behaviour b M (attempt :: rest) =
      { result := (fetchGo behaviour b M rest).result,
        attempts := (fetchGo behaviour b M rest).attempts + 1,
        sleeps := (if attempt < M then [b ^ attempt] else []) ++
          (fetchGo behaviour b M rest).sleeps } := by
  cases hbeh : behaviour attempt with
  | success d => rw [hbeh] at h; simp [isRetryable] at h
  | unrecoverable => rw [hbeh] at h; simp [isRetryable] at h
  | timeout => simp only [fetchGo, hbeh]
  | httpError => simp only [fetchGo, hbeh]
  | connectionError => simp only [fetchGo, hbeh]

theorem fetchGo_cons_unrecoverable (behaviour : Nat → AttemptOutcome) (b M attempt : Nat)
    (rest : List Nat) (h : behaviour attempt = AttemptOutcome.unrecoverable) :
    fetchGo behaviour b M (attempt :: rest) =
      { result := Option.none, attempts := 1, sleeps := [] } := by
  unfold fetchGo
  rw [h]

theorem fetchGo_all_retryable (behaviour : Nat → AttemptOutcome) (b M : Nat) :
    ∀ (len start : Nat), 1 ≤ start → start + len = M + 1 →
    (∀ j, start ≤ j → j ≤ M → isRetryable (behaviour j) = true) →
    fetchGo behaviour b M (List.range' start len) =
      { result := Option.none, attempts := len,
        sleeps := (List.range' start (len - 1)).map (fun a => b ^ a) } := by
  intro len
  induction len with
  | zero => intro start h1 h2 h3; rfl
  | succ l ih =>
    intro start h1 h2 h3
    rw [List.range'_succ]
    have hsM : start ≤ M := by omega
    rw [fetchGo_cons_retryable behaviour b M start _ (h3 start le_rfl hsM)]
    rw [ih (start + 1) (by omega) (by omega) (fun j hj1 hj2 => h3 j (by omega) hj2)]
    cases l with
    | zero =>
      have : ¬ start < M := by omega
      simp [this]
    | succ l' =>
      have hlt : start < M := by omega
      simp only [hlt, if_true, Nat.succ_sub_one]
      rw [List.range'_succ start l' 1]
      simp

theorem fetchGo_retryable_until_unrecoverable (behaviour : Nat → AttemptOutcome)
    (b M k : Nat) (hkM : k ≤ M) :
    ∀ (len start : Nat), 1 ≤ start → start ≤ k → start + len = M + 1 →
    (∀ j, start ≤ j → j < k → isRetryable (behaviour j) = true) →
    behaviour k = AttemptOutcome.unrecoverable →
    fetchGo behaviour b M (List.range' start len) =
      { result := Option.none, attempts := k - start + 1,
        sleeps := (List.range' start (k - start)).map (fun a => b ^ a) } := by
  intro len
  induction len with
  | zero => intro start h1 h2 h3 h4 h5; omega
  | succ l ih =>
    intro start h1 h2 h3 h4 h5
    rw [List.range'_succ]
    rcases Nat.eq_or_lt_of_le h2 with heq | hlt
    · subst heq
      rw [fetchGo_cons_unrecoverable behaviour b M start _ h5]
      simp
    · rw [fetchGo_cons_retryable behaviour b M start _ (h4 start le_rfl hlt)]
      rw [ih (start + 1) (by omega) (by omega) (by omega)
        (fun j hj1 hj2 => h4 j (by omega) hj2) h5]
      have hsM : start < M := by omega
      rw [show k - (start + 1) = k - start - 1 from by omega]
      have hks : k - start = (k - start - 1) + 1 := by omega
      rw [hks, List.range'_succ start (k - start - 1) 1]
      simp only [hsM, if_true, List.map_cons, List.singleton_append, Nat.add_sub_cancel]

/-- C1: for every `max_retries = N ≥ 1`, a `fetch_weather` call in which
every attempt fails with a retryable error (timeout, connection failure, or
non-success HTTP status) performs exactly N HTTP attempts, sleeps
`backoff_factor ^ attempt` after each attempt 1 … N-1 (and not after
attempt N), and returns `None` without raising. -/
theorem fetch_weather_all_retryable_exhausts
    (behaviour : Nat → AttemptOutcome) (N : Int) (b : Nat)
    (hN : 1 ≤ N)
    (hr : ∀ j : Nat, 1 ≤ j → (j : Int) ≤ N → isRetryable (behaviour j) = true) :
    fetch_weather behaviour N b =
      { result := Option.none, attempts := N.toNat,
        sleeps := (List.range' 1 (N.toNat - 1)).map (fun a => b ^ a) } := by
  unfold fetch_weather
  exact fetchGo_all_retryable behaviour b N.toNat N.toNat 1 le_rfl (by omega)
    (fun j hj1 hj2 => hr j hj1 (by omega))

theorem fetch_weather_all_retryable_exhausts_witness :
    fetch_weather (fun _ => AttemptOutcome.timeout) 3 2 =
      { result := Option.none, attempts := 3, sleeps := [2, 4] } := by
  have h := fetch_weather_all_retryable_exhausts (fun _ => AttemptOutcome.timeout) 3 2
    (by norm_num) (fun j hj1 hj2 => rfl)
  exact h

/-- C5: when the attempts before attempt k fail retryably and attempt
k ≤ max_retries fails with an unrecoverable request error, `fetch_weather`
returns `None` immediately after attempt k: exactly k attempts are made
(so exactly 1 in the all-attempts-unrecoverable case), no back-off sleep
follows attempt k, and no remaining retries are consumed. -/
theorem fetch_weather_unrecoverable_aborts
    (behaviour : Nat → AttemptOutcome) (N : Int) (b : Nat) (k : Nat)
    (hk1 : 1 ≤ k) (hkN : (k : Int) ≤ N)
    (hr : ∀ j, 1 ≤ j → j < k → isRetryable (behaviour j) = true)
    (hu : behaviour k = AttemptOutcome.unrecoverable) :
    fetch_weather behaviour N b =
      { result := Option.none, attempts := k,
        sleeps := (List.range' 1 (k - 1)).map (fun a => b ^ a) } := by
  unfold fetch_weather
  have h := fetchGo_retryable_until_unrecoverable behaviour b N.toNat k (by omega)
    N.toNat 1 le_rfl hk1 (by omega) (fun j hj1 hj2 => hr j hj1 hj2) hu
  rw [h]
  have h1 : k - 1 + 1 = k := by omega
  rw [h1]

theorem fetch_weather_unrecoverable_aborts_witness :
    fetch_weather (fun _ => AttemptOutcome.unrecoverable) 3 2 =
      { result := Option.none, attempts := 1, sleeps := [] } := by
  have h := fetch_weather_unrecoverable_aborts (fun _ => AttemptOutcome.unrecoverable) 3 2 1
    le_rfl (by norm_num) (fun j hj1 hj2 => absurd hj2 (by omega)) rfl
  exact h

/-- C10: for every configuration with `max_retries ≤ 0`, the loop
`range(1, max_retries + 1)` is empty, so `fetch_weather` performs zero HTTP
attempts, performs no sleeps, and returns `None` without raising. -/
theorem fetch_weather_nonpositive_retries
    (behaviour : Nat → AttemptOutcome) (N : Int) (b : Nat) (hN : N ≤ 0) :
    fetch_weather behaviour N b =
      { result := Option.none, attempts := 0, sleeps := [] } := by
  unfold fetch_weather
  have h : N.toNat = 0 := by omega
  rw [h]
  rfl

theorem fetch_weather_nonpositive_retries_witness :
    fetch_weather (fun _ => AttemptOutcome.timeout) (-1) 2 =
      { result := Option.none, attempts := 0, sleeps := [] } :=
  fetch_weather_nonpositive_retries (fun _ => AttemptOutcome.timeout) (-1) 2 (by norm_num)

theorem extractLoop_eq (fetchRes : City → Option PyVal) :
    ∀ (cities : List City) (acc : List ExtractedRecord),
    extractLoop fetchRes cities acc =
      acc ++ cities.filterMap (fun c =>
        (fetchRes c).map (fun raw => { city := c.name, raw := raw })) := by
  intro cities
  induction cities with
  | nil => intro acc; simp [extractLoop]
  | cons c rest ih =>
    intro acc
    cases hc : fetchRes c with
    | none => simp [extractLoop, hc, ih]
    | some raw => simp [extractLoop, hc, ih]

theorem length_filterMap_lt_of_none {α β : Type} (f : α → Option β) :
    ∀ (l : List α), (∃ c ∈ l, f c = Option.none) →
    (l.filterMap f).length < l.length := by
  intro l
  induction l with
  | nil => rintro ⟨c, hc, _⟩; cases hc
  | cons a rest ih =>
    rintro ⟨c, hc, hfc⟩
    rcases List.mem_cons.mp hc with rfl | hmem
    · simp only [List.filterMap_cons, hfc, List.length_cons]
      exact Nat.lt_succ_of_le (List.length_filterMap_le f rest)
    · cases hfa : f a with
      | none =>
        simp only [List.filterMap_cons, hfa, List.length_cons]
        exact Nat.lt_succ_of_lt (ih ⟨c, hmem, hfc⟩)
      | some b =>
        simp only [List.filterMap_cons, hfa, List.length_cons]
        exact Nat.succ_lt_succ (ih ⟨c, hmem, hfc⟩)

/-- C2: for every ordered city list and every Fetcher behaviour,
`extract_all` returns exactly the `{city, raw}` pairs of the cities whose
`fetch_weather` call returned a result, preserving the input order with the
failed cities dropped (and never raises, being a total function); its
length is at most the input length, and strictly less when at least one
city fails. -/
theorem extract_all_successes_in_order
    (behaviourOf : City → Nat → AttemptOutcome) (cfg : ApiConfig) (cities : List City) :
    extract_all behaviourOf cfg cities =
      cities.filterMap (fun c =>
        ((fetch_weather (behaviourOf c) cfg.maxRetries cfg.backoffFactor).result).map
          (fun raw => { city := c.name, raw := raw })) ∧
    (extract_all behaviourOf cfg cities).length ≤ cities.length ∧
    ((∃ c ∈ cities,
        (fetch_weather (behaviourOf c) cfg.maxRetries cfg.backoffFactor).result = Option.none) →
      (extract_all behaviourOf cfg cities).length < cities.length) := by
  have he : extract_all behaviourOf cfg cities =
      cities.filterMap (fun c =>
        ((fetch_weather (behaviourOf c) cfg.maxRetries cfg.backoffFactor).result).map
          (fun raw => { city := c.name, raw := raw })) := by
    unfold extract_all
    rw [extractLoop_eq]
    simp
  refine ⟨he, ?_, ?_⟩
  · rw [he]
    exact List.length_filterMap_le _ _
  · intro hex
    rw [he]
    apply length_filterMap_lt_of_none
    rcases hex with ⟨c, hc, hnone⟩
    exact ⟨c, hc, by rw [hnone]; rfl⟩

theorem extract_all_successes_in_order_witness :
    (extract_all
      (fun c _ => if c.name == "ok" then AttemptOutcome.success (PyVal.dict []) else AttemptOutcome.unrecoverable)
      { maxRetries := 2, backoffFactor := 1 }
      [{ name := "ok", latitude := PyVal.int 0, longitude := PyVal.int 0 },
       { name := "bad", latitude := PyVal.int 1, longitude := PyVal.int 1 }]).length < 2 := by
  have h := (extract_all_successes_in_order
    (fun c _ => if c.name == "ok" then AttemptOutcome.success (PyVal.dict []) else AttemptOutcome.unrecoverable)
    { maxRetries := 2, backoffFactor := 1 }
    [{ name := "ok", latitude := PyVal.int 0, longitude := PyVal.int 0 },
     { name := "bad", latitude := PyVal.int 1, longitude := PyVal.int 1 }]).2.2
  exact h ⟨{ name := "bad", latitude := PyVal.int 1, longitude := PyVal.int 1 },
    by simp, rfl⟩

theorem except_bind_ok_inv {α β : Type} {x : Except PyErr α} {f : α → Except PyErr β} {b : β}
    (h : x.bind f = .ok b) : ∃ a, x = .ok a ∧ f a = .ok b := by
  cases x with
  | error e => exact Except.noConfusion h
  | ok a => exact ⟨a, rfl, h⟩

theorem mem_zipWith_ex {α β γ : Type} (f : α → β → γ) :
    ∀ (as : List α) (bs : List β) (c : γ), c ∈ List.zipWith f as bs →
    ∃ a ∈ as, ∃ b ∈ bs, c = f a b := by
  intro as
  induction as with
  | nil => intro bs c hc; simp at hc
  | cons a as' ih =>
    intro bs c hc
    cases bs with
    | nil => simp at hc
    | cons b bs' =>
      rw [List.zipWith_cons_cons] at hc
      rcases List.mem_cons.mp hc with rfl | hmem
      · exact ⟨a, List.mem_cons_self a as', b, List.mem_cons_self b bs', rfl⟩
      · rcases ih bs' c hmem with ⟨a', ha, b', hb, hcc⟩
        exact ⟨a', List.mem_cons_of_mem a ha, b', List.mem_cons_of_mem b hb, hcc⟩

theorem mapExcept_ok_mem (f : PyVal → Except PyErr PyVal) :
    ∀ (xs ys : List PyVal), mapExcept f xs = .ok ys →
    ∀ y ∈ ys, ∃ x ∈ xs, f x = .ok y := by
  intro xs
  induction xs with
  | nil =>
    intro ys h y hy
    injection h with h
    subst h
    cases hy
  | cons v rest ih =>
    intro ys h y hy
    simp only [mapExcept] at h
    obtain ⟨w, hw, h⟩ := except_bind_ok_inv h
    obtain ⟨ws, hws, h⟩ := except_bind_ok_inv h
    injection h with h
    subst h
    rcases List.mem_cons.mp hy with rfl | hmem
    · exact ⟨v, List.mem_cons_self v rest, hw⟩
    · rcases ih ws hws y hmem with ⟨x, hx, hfx⟩
      exact ⟨x, List.mem_cons_of_mem v hx, hfx⟩

theorem parseNumCore_shape (neg : Bool) (cs : List Char) (w : PyVal)
    (h : parseNumCore neg cs = some w) :
    (∃ i, w = PyVal.int i) ∨ (∃ q, w = PyVal.float q) := by
  simp only [parseNumCore] at h
  split at h
  · split at h
    · exact Option.noConfusion h
    · injection h with h; exact Or.inl ⟨_, h.symm⟩
  · split at h
    · split at h
      · exact Option.noConfusion h
      · injection h with h; exact Or.inr ⟨_, h.symm⟩
    · exact Option.noConfusion h
  · exact Option.noConfusion h

theorem parseNum?_shape (s : String) (w : PyVal) (h : parseNum? s = some w) :
    (∃ i, w = PyVal.int i) ∨ (∃ q, w = PyVal.float q) := by
  simp only [parseNum?] at h
  split at h
  · exact Option.noConfusion h
  · exact parseNumCore_shape _ _ _ h
  · exact parseNumCore_shape _ _ _ h
  · exact parseNumCore_shape _ _ _ h

theorem toNumeric_ok_numOrNull (x v : PyVal) (h : toNumeric x = .ok v) : numOrNull v := by
  cases x with
  | none => injection h with h; subst h; exact Or.inl rfl
  | bool b => injection h with h; subst h; exact Or.inr (Or.inl ⟨_, rfl⟩)
  | int n => injection h with h; subst h; exact Or.inr (Or.inl ⟨_, rfl⟩)
  | float q => injection h with h; subst h; exact Or.inr (Or.inr ⟨_, rfl⟩)
  | str s =>
    simp only [toNumeric] at h
    cases hp : parseNum? s with
    | none => rw [hp] at h; injection h with h; subst h; exact Or.inl rfl
    | some w' =>
      rw [hp] at h
      injection h with h
      subst h
      rcases parseNum?_shape s w' hp with ⟨i, hi⟩ | ⟨q, hq⟩
      · exact Or.inr (Or.inl ⟨i, hi⟩)
      · exact Or.inr (Or.inr ⟨q, hq⟩)
  | list l => exact Except.noConfusion h
  | dict d => exact Except.noConfusion h

theorem astypeInt64_ok_intOrNull (x v : PyVal) (h : astypeInt64 x = .ok v) : intOrNull v := by
  cases x with
  | none => injection h with h; subst h; exact Or.inl rfl
  | int n => injection h with h; subst h; exact Or.inr ⟨n, rfl⟩
  | float q =>
    simp only [astypeInt64] at h
    split at h
    · injection h with h; subst h; exact Or.inr ⟨_, rfl⟩
    · exact Except.noConfusion h
  | bool b => exact Except.noConfusion h
  | str s => exact Except.noConfusion h
  | list l => exact Except.noConfusion h
  | dict d => exact Except.noConfusion h

theorem coerceColumn_mem {rows rows' : List Row} {get : Row → PyVal} {set : Row → PyVal → Row}
    (h : coerceColumn rows get set = .ok rows') :
    ∀ row ∈ rows', ∃ r ∈ rows, ∃ v, numOrNull v ∧ row = set r v := by
  unfold coerceColumn at h
  obtain ⟨vals, hvals, h⟩ := except_bind_ok_inv h
  injection h with h
  subst h
  intro row hrow
  rcases mem_zipWith_ex set rows vals row hrow with ⟨r, hr, v, hv, hrv⟩
  rcases mapExcept_ok_mem toNumeric _ _ hvals v hv with ⟨x, _, hfx⟩
  exact ⟨r, hr, v, toNumeric_ok_numOrNull x v hfx, hrv⟩

theorem coerceColumnInt64_mem {rows rows' : List Row} {get : Row → PyVal} {set : Row → PyVal → Row}
    (h : coerceColumnInt64 rows get set = .ok rows') :
    ∀ row ∈ rows', ∃ r ∈ rows, ∃ v, intOrNull v ∧ row = set r v := by
  unfold coerceColumnInt64 at h
  obtain ⟨vals, hvals, h⟩ := except_bind_ok_inv h
  obtain ⟨vals2, hvals2, h⟩ := except_bind_ok_inv h
  injection h with h
  subst h
  intro row hrow
  rcases mem_zipWith_ex set rows vals2 row hrow with ⟨r, hr, v, hv, hrv⟩
  rcases mapExcept_ok_mem astypeInt64 _ _ hvals2 v hv with ⟨x, _, hfx⟩
  exact ⟨r, hr, v, astypeInt64_ok_intOrNull x v hfx, hrv⟩

theorem coerceColumn_pres {rows rows' : List Row} {get : Row → PyVal} {set : Row → PyVal → Row}
    (h : coerceColumn rows get set = .ok rows') (P : Row → Prop)
    (hpres : ∀ r v, P r → P (set r v)) (hall : ∀ r ∈ rows, P r) :
    ∀ row ∈ rows', P row := by
  intro row hrow
  rcases coerceColumn_mem h row hrow with ⟨r, hr, v, _, hrv⟩
  rw [hrv]
  exact hpres r v (hall r hr)

theorem coerceColumnInt64_pres {rows rows' : List Row} {get : Row → PyVal} {set : Row → PyVal → Row}
    (h : coerceColumnInt64 rows get set = .ok rows') (P : Row → Prop)
    (hpres : ∀ r v, P r → P (set r v)) (hall : ∀ r ∈ rows, P r) :
    ∀ row ∈ rows', P row := by
  intro row hrow
  rcases coerceColumnInt64_mem h row hrow with ⟨r, hr, v, _, hrv⟩
  rw [hrv]
  exact hpres r v (hall r hr)

theorem coerceColumn_field {rows rows' : List Row} {get : Row → PyVal} {set : Row → PyVal → Row}
    (h : coerceColumn rows get set = .ok rows') (geto : Row → PyVal)
    (hget : ∀ r v, geto (set r v) = v) :
    ∀ row ∈ rows', numOrNull (geto row) := by
  intro row hrow
  rcases coerceColumn_mem h row hrow with ⟨r, hr, v, hnum, hrv⟩
  rw [hrv, hget]
  exact hnum

theorem coerceColumnInt64_field {rows rows' : List Row} {get : Row → PyVal} {set : Row → PyVal → Row}
    (h : coerceColumnInt64 rows get set = .ok rows') (geto : Row → PyVal)
    (hget : ∀ r v, geto (set r v) = v) :
    ∀ row ∈ rows', intOrNull (geto row) := by
  intro row hrow
  rcases coerceColumnInt64_mem h row hrow with ⟨r, hr, v, hnum, hrv⟩
  rw [hrv, hget]
  exact hnum

theorem collectRows_ok_mem (now : String) :
    ∀ (records : List PyVal) (rows : List Row), collectRows now records = .ok rows →
    ∀ r ∈ rows, ∃ record ∈ records, parse_single now record = .ok (some r) := by
  intro records
  induction records with
  | nil =>
    intro rows h r hr
    injection h with h
    subst h
    cases hr
  | cons record rest ih =>
    intro rows h r hr
    simp only [collectRows] at h
    obtain ⟨parsed, hp, h⟩ := except_bind_ok_inv h
    obtain ⟨rows2, hrows2, h⟩ := except_bind_ok_inv h
    cases parsed with
    | some row2 =>
      injection h with h
      subst h
      rcases List.mem_cons.mp hr with rfl | hmem
      · exact ⟨record, List.mem_cons_self record rest, hp⟩
      · rcases ih rows2 hrows2 r hmem with ⟨rec2, hrec2, hp2⟩
        exact ⟨rec2, List.mem_cons_of_mem record hrec2, hp2⟩
    | none =>
      injection h with h
      subst h
      rcases ih rows2 hrows2 r hr with ⟨rec2, hrec2, hp2⟩
      exact ⟨rec2, List.mem_cons_of_mem record hrec2, hp2⟩

theorem collectRows_all_skipped (now : String) :
    ∀ (records : List PyVal),
    (∀ rec ∈ records, parse_single now rec = .ok Option.none) →
    collectRows now records = .ok [] := by
  intro records
  induction records with
  | nil => intro _; rfl
  | cons record rest ih =>
    intro hall
    have h1 := hall record (List.mem_cons_self record rest)
    have h2 := ih (fun rec hrec => hall rec (List.mem_cons_of_mem record hrec))
    simp only [collectRows, h1, h2, except_bind_ok]

theorem parse_single_ok_retrieval (now : String) (record : PyVal) (row : Row)
    (h : parse_single now record = .ok (some row)) :
    row.retrieval_timestamp = PyVal.str now := by
  unfold parse_single at h
  obtain ⟨cityV, hcity, h⟩ := except_bind_ok_inv h
  obtain ⟨raw, hraw, h⟩ := except_bind_ok_inv h
  obtain ⟨current, hcur, h⟩ := except_bind_ok_inv h
  cases current with
  | none =>
    injection h with h
    exact Option.noConfusion h
  | dict cents =>
    injection h with h
    injection h with h
    subst h
    rfl
  | bool b => exact Except.noConfusion h
  | int n => exact Except.noConfusion h
  | float q => exact Except.noConfusion h
  | str s => exact Except.noConfusion h
  | list l => exact Except.noConfusion h

theorem transform_ok_inv (now : String) (records : List PyVal) (frame : Frame)
    (h : transform now records = .ok frame) :
    frame.columns = EXPECTED_COLUMNS ∧
    (frame.rows = [] ∨
      ∃ rows rows1 rows2 rows3 rows4,
        collectRows now records = .ok rows ∧
        coerceColumn rows (fun r => r.temperature_c)
          (fun r v => { r with temperature_c := v }) = .ok rows1 ∧
        coerceColumn rows1 (fun r => r.windspeed_kmh)
          (fun r v => { r with windspeed_kmh := v }) = .ok rows2 ∧
        coerceColumn rows2 (fun r => r.winddirection_deg)
          (fun r v => { r with winddirection_deg := v }) = .ok rows3 ∧
        coerceColumnInt64 rows3 (fun r => r.weathercode)
          (fun r v => { r with weathercode := v }) = .ok rows4 ∧
        coerceColumnInt64 rows4 (fun r => r.is_day)
          (fun r v => { r with is_day := v }) = .ok frame.rows) := by
  unfold transform at h
  obtain ⟨rows, h0, h⟩ := except_bind_ok_inv h
  cases rows with
  | nil =>
    injection h with h
    subst h
    exact ⟨rfl, Or.inl rfl⟩
  | cons r rs =>
    obtain ⟨rows1, h1, h⟩ := except_bind_ok_inv h
    obtain ⟨rows2, h2, h⟩ := except_bind_ok_inv h
    obtain ⟨rows3, h3, h⟩ := except_bind_ok_inv h
    obtain ⟨rows4, h4, h⟩ := except_bind_ok_inv h
    obtain ⟨rows5, h5, h⟩ := except_bind_ok_inv h
    injection h with h
    subst h
    exact ⟨rfl, Or.inr ⟨r :: rs, rows1, rows2, rows3, rows4, h0, h1, h2, h3, h4, h5⟩⟩

/-- C3: evaluation of the code at the failing input. The claim says a
record whose `current_weather` entry is a non-mapping is skipped with the
error logged and no exception propagated; in the code, however,
`current.get(...)` on a non-mapping raises `AttributeError`, which the
handler `except (KeyError, TypeError)` does not catch, so `transform`
propagates the exception instead of skipping the record. -/
theorem transform_nonmapping_subblock_propagates :
    transform "T" [PyVal.dict [("city", PyVal.str "X"),
      ("raw", PyVal.dict [("current_weather", PyVal.int 5)])]] =
      .error PyErr.attributeError := rfl

/-- C4 counterexample: the claim says every value that cannot be coerced
becomes null, including non-integral numbers in the integer-typed fields;
but a record whose `weathercode` is the non-integral number 7/2 makes
`transform` raise `TypeError` (from `.astype("Int64")`) instead of
producing a null. -/
theorem transform_nonintegral_int64_raises :
    transform "T" [PyVal.dict [("city", PyVal.str "Paris"),
      ("raw", PyVal.dict [("current_weather", PyVal.dict
        [("time", PyVal.str "t"), ("temperature", PyVal.float 7),
         ("windspeed", PyVal.str "abc"), ("winddirection", PyVal.int 210),
         ("weathercode", PyVal.float (mkRat 7 2)), ("is_day", PyVal.int 0)])])]] =
      .error PyErr.typeError := rfl

/-- C4 (amended): in every batch `transform` returns, the float-typed
output fields are numeric-or-null and the `Int64`-typed fields
`weathercode` / `is_day` are integer-or-null; a value `pd.to_numeric`
cannot coerce (e.g. a non-numeric string) becomes null rather than raising;
but a value that coerces to a non-integral number in an integer-typed field
makes the `Int64` cast raise `TypeError` (aborting the batch) instead of
becoming null. -/
theorem transform_coercion_amended (now : String) (records : List PyVal) (frame : Frame)
    (h : transform now records = .ok frame) :
    (∀ row ∈ frame.rows,
      numOrNull row.temperature_c ∧ numOrNull row.windspeed_kmh ∧
      numOrNull row.winddirection_deg ∧ intOrNull row.weathercode ∧
      intOrNull row.is_day) ∧
    (∀ s, parseNum? s = Option.none → toNumeric (PyVal.str s) = .ok PyVal.none) ∧
    (∀ q : Rat, q.den ≠ 1 → astypeInt64 (PyVal.float q) = .error PyErr.typeError) := by
  refine ⟨?_, ?_, ?_⟩
  · rcases transform_ok_inv now records frame h with
      ⟨_, hempty | ⟨rows, rows1, rows2, rows3, rows4, h0, h1, h2, h3, h4, h5⟩⟩
    · intro row hrow
      rw [hempty] at hrow
      cases hrow
    · have t1 : ∀ row ∈ rows1, numOrNull row.temperature_c :=
        coerceColumn_field h1 (fun r => r.temperature_c) (fun r v => rfl)
      have t2 := coerceColumn_pres h2 (fun r => numOrNull r.temperature_c) (fun r v hp => hp) t1
      have t3 := coerceColumn_pres h3 (fun r => numOrNull r.temperature_c) (fun r v hp => hp) t2
      have t4 := coerceColumnInt64_pres h4 (fun r => numOrNull r.temperature_c) (fun r v hp => hp) t3
      have t5 := coerceColumnInt64_pres h5 (fun r => numOrNull r.temperature_c) (fun r v hp => hp) t4
      have w2 : ∀ row ∈ rows2, numOrNull row.windspeed_kmh :=
        coerceColumn_field h2 (fun r => r.windspeed_kmh) (fun r v => rfl)
      have w3 := coerceColumn_pres h3 (fun r => numOrNull r.windspeed_kmh) (fun r v hp => hp) w2
      have w4 := coerceColumnInt64_pres h4 (fun r => numOrNull r.windspeed_kmh) (fun r v hp => hp) w3
      have w5 := coerceColumnInt64_pres h5 (fun r => numOrNull r.windspeed_kmh) (fun r v hp => hp) w4
      have d3 : ∀ row ∈ rows3, numOrNull row.winddirection_deg :=
        coerceColumn_field h3 (fun r => r.winddirection_deg) (fun r v => rfl)
      have d4 := coerceColumnInt64_pres h4 (fun r => numOrNull r.winddirection_deg) (fun r v hp => hp) d3
      have d5 := coerceColumnInt64_pres h5 (fun r => numOrNull r.winddirection_deg) (fun r v hp => hp) d4
      have c4 : ∀ row ∈ rows4, intOrNull row.weathercode :=
        coerceColumnInt64_field h4 (fun r => r.weathercode) (fun r v => rfl)
      have c5 := coerceColumnInt64_pres h5 (fun r => intOrNull r.weathercode) (fun r v hp => hp) c4
      have i5 : ∀ row ∈ frame.rows, intOrNull row.is_day :=
        coerceColumnInt64_field h5 (fun r => r.is_day) (fun r v => rfl)
      intro row hrow
      exact ⟨t5 row hrow, w5 row hrow, d5 row hrow, c5 row hrow, i5 row hrow⟩
  · intro s hs
    simp only [toNumeric, hs]
  · intro q hq
    simp only [astypeInt64]
    rw [if_neg hq]

theorem transform_coercion_amended_witness :
    numOrNull (PyVal.float 7) ∧ intOrNull (PyVal.int 3) ∧
    toNumeric (PyVal.str "abc") = .ok PyVal.none ∧
    astypeInt64 (PyVal.float (mkRat 7 2)) = .error PyErr.typeError := by
  have h := transform_coercion_amended "T" [PyVal.dict [("city", PyVal.str "Paris"),
      ("raw", PyVal.dict [("current_weather", PyVal.dict
        [("time", PyVal.str "t"), ("temperature", PyVal.float 7),
         ("windspeed", PyVal.str "abc"), ("winddirection", PyVal.int 210),
         ("weathercode", PyVal.int 3), ("is_day", PyVal.int 0)])])]]
    { columns := EXPECTED_COLUMNS,
      rows := [{ city := PyVal.str "Paris",
                 timestamp := PyVal.str "t",
                 temperature_c := PyVal.float 7,
                 windspeed_kmh := PyVal.none,
                 winddirection_deg := PyVal.int 210,
                 weathercode := PyVal.int 3,
                 is_day := PyVal.int 0,
                 retrieval_timestamp := PyVal.str "T" }] } rfl
  have hrow := h.1 { city := PyVal.str "Paris",
                     timestamp := PyVal.str "t",
                     temperature_c := PyVal.float 7,
                     windspeed_kmh := PyVal.none,
                     winddirection_deg := PyVal.int 210,
                     weathercode := PyVal.int 3,
                     is_day := PyVal.int 0,
                     retrieval_timestamp := PyVal.str "T" }
    (List.mem_cons_self _ _)
  exact ⟨hrow.1, hrow.2.2.2.1, h.2.1 "abc" rfl, h.2.2 (mkRat 7 2) (by decide)⟩

/-- C6: for every record (given as a dict with its looked-up `city` value
and a dict `raw` payload): when the raw payload's `current_weather` lookup
yields `None` (in particular when the sub-block is absent), `parse_single`
skips the record (`Option.none`) without raising; when the sub-block is
present as a mapping, a row is produced whose per-field values are the
sub-field lookups — and any missing sub-field yields a null value in the
corresponding output field, never a skip. -/
theorem parse_single_subblock_policy (now : String)
    (rents raws : List (String × PyVal)) (cityV : PyVal)
    (hcity : lookupD rents "city" (PyVal.str "unknown") = cityV)
    (hraw : lookupD rents "raw" (PyVal.dict []) = PyVal.dict raws) :
    (lookupD raws "current_weather" PyVal.none = PyVal.none →
      parse_single now (PyVal.dict rents) = .ok Option.none) ∧
    (∀ cents, lookupD raws "current_weather" PyVal.none = PyVal.dict cents →
      parse_single now (PyVal.dict rents) = .ok (some
        { city := cityV,
          timestamp := subField cents "time",
          temperature_c := subField cents "temperature",
          windspeed_kmh := subField cents "windspeed",
          winddirection_deg := subField cents "winddirection",
          weathercode := subField cents "weathercode",
          is_day := subField cents "is_day",
          retrieval_timestamp := PyVal.str now }) ∧
      (∀ k, cents.find? (fun e => e.1 == k) = Option.none →
        subField cents k = PyVal.none)) := by
  have e1 : pyGet (PyVal.dict rents) "city" (PyVal.str "unknown") = .ok cityV := by
    rw [← hcity]; rfl
  have e2 : pyGet (PyVal.dict rents) "raw" (PyVal.dict []) = .ok (PyVal.dict raws) := by
    rw [← hraw]; rfl
  constructor
  · intro hcw
    have e3 : pyGet (PyVal.dict raws) "current_weather" PyVal.none = .ok PyVal.none := by
      have e : pyGet (PyVal.dict raws) "current_weather" PyVal.none =
          .ok (lookupD raws "current_weather" PyVal.none) := rfl
      rw [hcw] at e
      exact e
    simp only [parse_single, e1, e2, e3, except_bind_ok]
  · intro cents hcw
    have e3 : pyGet (PyVal.dict raws) "current_weather" PyVal.none =
        .ok (PyVal.dict cents) := by
      have e : pyGet (PyVal.dict raws) "current_weather" PyVal.none =
          .ok (lookupD raws "current_weather" PyVal.none) := rfl
      rw [hcw] at e
      exact e
    constructor
    · simp only [parse_single, e1, e2, e3, except_bind_ok]
      rfl
    · intro k hk
      simp only [subField, lookupD, hk]

theorem parse_single_subblock_policy_witness :
    parse_single "T" (PyVal.dict [("city", PyVal.str "B"),
      ("raw", PyVal.dict [("current_weather",
        PyVal.dict [("temperature", PyVal.float 7)])])]) =
      .ok (some { city := PyVal.str "B",
                  timestamp := PyVal.none,
                  temperature_c := PyVal.float 7,
                  windspeed_kmh := PyVal.none,
                  winddirection_deg := PyVal.none,
                  weathercode := PyVal.none,
                  is_day := PyVal.none,
                  retrieval_timestamp := PyVal.str "T" }) := by
  have h := (parse_single_subblock_policy "T"
    [("city", PyVal.str "B"),
     ("raw", PyVal.dict [("current_weather", PyVal.dict [("temperature", PyVal.float 7)])])]
    [("current_weather", PyVal.dict [("temperature", PyVal.float 7)])]
    (PyVal.str "B") rfl rfl).2
    [("temperature", PyVal.float 7)] rfl
  exact h.1

/-- C7: every row of a DataFrame returned by `transform` has its
`retrieval_timestamp` equal to the normalization wall-clock string `now`
(hence non-null), for every source payload — independent of the payload's
own time field, over which the statement quantifies. -/
theorem transform_retrieval_timestamp_wallclock (now : String) (records : List PyVal)
    (frame : Frame) (h : transform now records = .ok frame) :
    ∀ row ∈ frame.rows, row.retrieval_timestamp = PyVal.str now ∧
      row.retrieval_timestamp ≠ PyVal.none := by
  rcases transform_ok_inv now records frame h with
    ⟨_, hempty | ⟨rows, rows1, rows2, rows3, rows4, h0, h1, h2, h3, h4, h5⟩⟩
  · intro row hrow
    rw [hempty] at hrow
    cases hrow
  · have e0 : ∀ r ∈ rows, r.retrieval_timestamp = PyVal.str now := by
      intro r hr
      rcases collectRows_ok_mem now records rows h0 r hr with ⟨rec, _, hp⟩
      exact parse_single_ok_retrieval now rec r hp
    have e1 := coerceColumn_pres h1
      (fun r => r.retrieval_timestamp = PyVal.str now) (fun r v hp => hp) e0
    have e2 := coerceColumn_pres h2
      (fun r => r.retrieval_timestamp = PyVal.str now) (fun r v hp => hp) e1
    have e3 := coerceColumn_pres h3
      (fun r => r.retrieval_timestamp = PyVal.str now) (fun r v hp => hp) e2
    have e4 := coerceColumnInt64_pres h4
      (fun r => r.retrieval_timestamp = PyVal.str now) (fun r v hp => hp) e3
    have e5 := coerceColumnInt64_pres h5
      (fun r => r.retrieval_timestamp = PyVal.str now) (fun r v hp => hp) e4
    intro row hrow
    refine ⟨e5 row hrow, ?_⟩
    rw [e5 row hrow]
    exact fun hc => PyVal.noConfusion hc

theorem transform_retrieval_timestamp_wallclock_witness :
    (PyVal.str "T" : PyVal) = PyVal.str "T" ∧ (PyVal.str "T" : PyVal) ≠ PyVal.none := by
  have h := transform_retrieval_timestamp_wallclock "T"
    [PyVal.dict [("city", PyVal.str "Paris"),
      ("raw", PyVal.dict [("current_weather", PyVal.dict
        [("time", PyVal.str "t"), ("temperature", PyVal.float 7),
         ("windspeed", PyVal.str "abc"), ("winddirection", PyVal.int 210),
         ("weathercode", PyVal.int 3), ("is_day", PyVal.int 0)])])]]
    { columns := EXPECTED_COLUMNS,
      rows := [{ city := PyVal.str "Paris",
                 timestamp := PyVal.str "t",
                 temperature_c := PyVal.float 7,
                 windspeed_kmh := PyVal.none,
                 winddirection_deg := PyVal.int 210,
                 weathercode := PyVal.int 3,
                 is_day := PyVal.int 0,
                 retrieval_timestamp := PyVal.str "T" }] } rfl
  exact h { city := PyVal.str "Paris",
            timestamp := PyVal.str "t",
            temperature_c := PyVal.float 7,
            windspeed_kmh := PyVal.none,
            winddirection_deg := PyVal.int 210,
            weathercode := PyVal.int 3,
            is_day := PyVal.int 0,
            retrieval_timestamp := PyVal.str "T" } (List.mem_cons_self _ _)

/-- C8: `transform` on the empty input returns the empty DataFrame with
exactly the fixed eight `EXPECTED_COLUMNS`; the same holds when every
record is skipped; and every DataFrame `transform` returns — empty or not —
carries exactly that column set, so the schema shape is never
data-dependent. -/
theorem transform_schema_fixed (now : String) :
    transform now [] = .ok { columns := EXPECTED_COLUMNS, rows := [] } ∧
    (∀ records, (∀ rec ∈ records, parse_single now rec = .ok Option.none) →
      transform now records = .ok { columns := EXPECTED_COLUMNS, rows := [] }) ∧
    (∀ records frame, transform now records = .ok frame →
      frame.columns = EXPECTED_COLUMNS) := by
  refine ⟨rfl, ?_, ?_⟩
  · intro records hall
    unfold transform
    rw [collectRows_all_skipped now records hall, except_bind_ok]
  · intro records frame h
    exact (transform_ok_inv now records frame h).1

theorem transform_schema_fixed_witness :
    transform "T" [PyVal.dict [("city", PyVal.str "X"), ("raw", PyVal.dict [])]] =
      .ok { columns := EXPECTED_COLUMNS, rows := [] } := by
  have h := (transform_schema_fixed "T").2.1
    [PyVal.dict [("city", PyVal.str "X"), ("raw", PyVal.dict [])]]
    (fun rec hrec => by
      rcases List.mem_singleton.mp hrec with rfl
      rfl)
  exact h

/-- C9: on an empty observation sequence the Load collaborator skips CSV
serialization entirely (`load_to_csv` performs no filesystem effect and
returns no path) and `load_to_sqlite` returns an inserted-row count of 0
with the table untouched. -/
theorem load_empty_input_skips (df : Frame) (data_dir ts : String) (table : List Row)
    (h : df.rows = []) :
    load_to_csv df data_dir ts = (Option.none, []) ∧
    load_to_sqlite df table = (0, table) := by
  unfold load_to_csv load_to_sqlite
  rw [h]
  exact ⟨rfl, rfl⟩

theorem load_empty_input_skips_witness :
    load_to_csv { columns := EXPECTED_COLUMNS, rows := [] } "data" "20260101" =
      (Option.none, []) ∧
    load_to_sqlite { columns := EXPECTED_COLUMNS, rows := [] } [] = (0, []) :=
  load_empty_input_skips { columns := EXPECTED_COLUMNS, rows := [] } "data" "20260101" [] rfl
